import Mathlib

/-!
Verification of the listing-extraction and market-stats pipeline of
`netlify/functions/ebaySales.ts`.

The TypeScript source is shallowly embedded below:
* JavaScript numbers are modelled as rationals (`ℚ`); every arithmetic
  operation the embedded code performs on the inputs considered is exact in
  binary floating point, so the rational model agrees with the runtime values.
* JavaScript `undefined` on optional record fields is modelled with `Option`.
* Throwing code is modelled with `Except String`; the single top-level
  `try/catch` of the handler corresponds to pattern-matching on the `Except`.
* The two network calls (ScrapingBee and SerpAPI) and the external
  `parsecurrency` npm library are impure collaborators outside the repository;
  they enter the model as explicit oracle fields of an `Env` record.  The
  cheerio DOM traversal is modelled by an oracle `cardsOf` mapping the raw
  HTML to the list of `.su-card-container` cards together with the texts the
  extractor's selectors read from each card.
* The handler additionally reports which upstream providers were invoked
  (`primaryCalled` / `fallbackCalled`), instrumentation placed exactly at the
  two call sites of the source.
-/

namespace EbaySales

/-- Result shape of the `parsecurrency` npm library (the fields the source
reads: `value` and `currency`; `symbol` is part of the documented shape). -/
structure ParsedCurrency where
  value : ℚ
  currency : String
  symbol : String
deriving Repr, DecidableEq

/-- JavaScript `String.prototype.trim`: strip whitespace from both ends
(computed on the character list so that concrete instances reduce). -/
def jsTrim (s : String) : String :=
  ⟨((s.data.dropWhile Char.isWhitespace).reverse.dropWhile Char.isWhitespace).reverse⟩

/-- `parsePrice` from the source: empty / whitespace-only input returns
`null`; otherwise the string is handed to the external `parsecurrency`
library, modelled by the oracle `parseCurrency`. -/
def parsePrice (parseCurrency : String → Option ParsedCurrency)
    (priceStr : String) : Option ParsedCurrency :=
  if jsTrim priceStr = "" then none else parseCurrency priceStr

/-- The `SoldItem` record of the source.  All fields the source marks `?` are
`Option`s; `price` is also an `Option` because the primary extractor pushes
`parsedPrice?.value`, which is `undefined` when the price text did not parse
(the objects pushed there are untyped `any`). -/
structure SoldItem where
  title : String
  price : Option ℚ
  currency : Option String := none
  soldDate : Option String := none
  condition : Option String := none
  imageUrl : Option String := none
  itemUrl : Option String := none
  shipping : Option String := none
deriving Repr, DecidableEq

/-- One `.su-card-container` element of the primary provider's markup, as the
extractor's selectors see it: the text of `.s-card__title .primary`, the text
of `.s-card__price`, and the text of the first `span` of
`.s-card__subtitle`. -/
structure Card where
  title : String
  priceText : String
  condition : String
deriving Repr, DecidableEq

/-- `extractSellItemsFromHTML` from the source, after the cheerio parse
(`cardsOf`) has produced the card list.  For each card in markup order, the
card is emitted iff its title differs from the sponsored placeholder
`"Shop on eBay"` and its condition text is truthy (non-empty); the emitted
record carries only `title` and `price := parsedPrice?.value` — the condition
and shipping texts the loop reads are discarded. -/
def extractSellItemsFromHTML (parseCurrency : String → Option ParsedCurrency)
    (cards : List Card) (_query : String) : List SoldItem :=
  cards.filterMap fun c =>
    let parsedPrice := parsePrice parseCurrency c.priceText
    if c.title ≠ "Shop on eBay" ∧ c.condition ≠ "" then
      some { title := c.title, price := parsedPrice.map ParsedCurrency.value }
    else
      none

/-- JavaScript `[...arr].sort((a, b) => a - b)` on an array that may contain
`undefined` entries: the defined numbers are sorted ascending and every
`undefined` entry is moved to the end of the array. -/
def jsSortNums (l : List (Option ℚ)) : List (Option ℚ) :=
  ((l.filterMap id).insertionSort (· ≤ ·)).map some
    ++ List.replicate (l.countP fun o => o.isNone) none

/-- JavaScript array indexing `l[i]` with a signed index: out-of-range access
yields `undefined` (`none`), and an in-range `undefined` element is also
`none` — exactly the two situations `sorted[base + 1] !== undefined`
distinguishes from a number. -/
def jsGet (l : List (Option ℚ)) (i : ℤ) : Option ℚ :=
  if h : 0 ≤ i ∧ i.toNat < l.length then l.get ⟨i.toNat, h.2⟩ else none

/-- `quantile` from the source: sort ascending, `pos = (length - 1) * q`,
`base = Math.floor(pos)`, `rest = pos - base`; linearly interpolate between
`sorted[base]` and `sorted[base + 1]` when the latter is defined, otherwise
return `sorted[base]` (which is `undefined` on the empty array, where
`base = -1`).  The branch where `sorted[base + 1]` is a number but
`sorted[base]` is not is unreachable for the `q ∈ \x7b0.25, 0.5, 0.75\x7d`
the source uses (it would be NaN in JavaScript) and is mapped to `none`. -/
def quantile (arr : List (Option ℚ)) (q : ℚ) : Option ℚ :=
  let sorted := jsSortNums arr
  let pos : ℚ := ((sorted.length : ℚ) - 1) * q
  let base : ℤ := ⌊pos⌋
  let rest : ℚ := pos - (base : ℚ)
  match jsGet sorted (base + 1), jsGet sorted base with
  | some nxt, some b => some (b + rest * (nxt - b))
  | some _, none => none
  | none, b => b

/-- The stats record returned by `calculateSalesMetrics`. -/
structure Stats where
  count : Nat
  p25 : Option ℚ
  median : Option ℚ
  p75 : Option ℚ
deriving Repr, DecidableEq

/-- `calculateSalesMetrics` from the source: `count` is the number of items,
and the three quantiles are `quantile` applied to the items' prices at
0.25, 0.5 and 0.75. -/
def calculateSalesMetrics (items : List SoldItem) : Stats :=
  { count := items.length
    p25 := quantile (items.map SoldItem.price) 0.25
    median := quantile (items.map SoldItem.price) 0.5
    p75 := quantile (items.map SoldItem.price) 0.75 }

/-- Decidable "JavaScript `String.prototype.includes`" test: `t` occurs as a
substring of `s` (all uses below have non-empty `t`). -/
def containsSub (s t : String) : Bool := (s.splitOn t).length > 1

/-- JavaScript `String.prototype.replace` with a string pattern replaces only
the first occurrence. -/
def replaceFirst (s pat repl : String) : String :=
  match s.splitOn pat with
  | [] => s
  | [x] => x
  | x :: y :: rest => x ++ repl ++ String.intercalate pat (y :: rest)

/-- JavaScript `o || d` on an optional string: `undefined` and the empty
string are both falsy and fall through to the default. -/
def jsOrStr (o : Option String) (d : String) : String :=
  match o with
  | some s => if s = "" then d else s
  | none => d

/-- Result of the shipping normalizer: a numeric cost (the source returns it
stringified via `String(shippingCost.toString())`; the model stringifies the
rational with `toString`, which agrees with JavaScript on integral costs) or
the literal `'Unknown'` marker. -/
inductive ShippingCost
  | cost (c : ℚ)
  | unknown
deriving Repr, DecidableEq

/-- The `shipping` field of a SerpAPI organic result as JSON: a string, an
object with `raw`/`extracted`, or absent (`undefined`). -/
inductive ShippingField
  | str (s : String)
  | obj (raw : String) (extracted : ℚ)
  | missing
deriving Repr, DecidableEq

/-- `getShippingCost` from the source.  On a string: a non-"free",
non-"bids" string containing "delivery" has `" delivery"` and `"+"` stripped
and is parsed (cost 0 when parsing fails); a non-"free" string containing
"bids" yields `'Unknown'`; anything else (including "free") costs 0.  On an
object, the pre-extracted number is used.  On `undefined`, the source's
`shipping.extracted` access throws a `TypeError`. -/
def getShippingCost (parseCurrency : String → Option ParsedCurrency) :
    ShippingField → Except String ShippingCost
  | .str s =>
    if ¬ containsSub s.toLower "free" ∧ ¬ containsSub s.toLower "bids"
        ∧ containsSub s "delivery" then
      let formattedShipping := replaceFirst (replaceFirst s " delivery" "") "+" ""
      match parsePrice parseCurrency formattedShipping with
      | some parsedShipping => .ok (.cost parsedShipping.value)
      | none => .ok (.cost 0)
    else if ¬ containsSub s.toLower "free" ∧ containsSub s.toLower "bids" then
      .ok .unknown
    else
      .ok (.cost 0)
  | .obj _ extracted => .ok (.cost extracted)
  | .missing => .error "TypeError: cannot read properties of undefined, reading extracted"

/-- The `price` field of a SerpAPI organic result (`it.price`), when present:
an object whose `raw` member may itself be absent. -/
structure RawPriceField where
  raw : Option String
deriving Repr, DecidableEq

/-- One entry of `organic_results` in the SerpAPI JSON, restricted to the
fields the source reads. -/
structure RawItem where
  title : Option String
  price : Option RawPriceField
  thumbnail : Option String
  link : Option String
  sold_at : Option String
  shipping : ShippingField
  condition : Option String
deriving Repr, DecidableEq

/-- The SerpAPI HTTP response: `r.ok`, `r.status`, and the parsed JSON's
`organic_results` member (absent when the JSON lacks it). -/
structure SerpResponse where
  ok : Bool
  status : Nat
  organic_results : Option (List RawItem)
deriving Repr, DecidableEq

/-- The mapping the source applies to each organic result inside
`fetchSerp`.  `it.price.raw` throws a `TypeError` when `it.price` is absent
(this happens before the result object is built); `getShippingCost` can also
throw on an absent shipping field.  `nowISO` is `new Date().toISOString()`. -/
def mapSerpItem (parseCurrency : String → Option ParsedCurrency)
    (nowISO : String) (it : RawItem) : Except String SoldItem :=
  match it.price with
  | none => .error "TypeError: cannot read properties of undefined, reading raw"
  | some priceField =>
    let p := parsePrice parseCurrency (jsOrStr priceField.raw "")
    match getShippingCost parseCurrency it.shipping with
    | .error e => .error e
    | .ok ship =>
      .ok
        { title := jsOrStr it.title ""
          price := some ((p.map ParsedCurrency.value).getD 0)
          currency := some (jsOrStr (p.map ParsedCurrency.currency) "USD")
          imageUrl := some (jsOrStr it.thumbnail "")
          itemUrl := some (jsOrStr it.link "")
          soldDate := some (jsOrStr it.sold_at nowISO)
          shipping := some (match ship with
            | .cost c => toString c
            | .unknown => "Unknown")
          condition := some (jsOrStr it.condition "Unknown") }

/-- The final `.filter` of `fetchSerp`: JavaScript truthiness of `x.title`
and `x.itemUrl` (non-empty strings) and `x.price > 0`. -/
def serpFilter (x : SoldItem) : Bool :=
  x.title != "" && (x.itemUrl.getD "") != ""
    && (match x.price with | some v => v > 0 | none => false)

/-- `fetchSerp` from the source.  A falsy `SERP_KEY` short-circuits to
`null`; the HTTP call itself (`serpFetch`) may reject; a non-ok status
throws `SerpAPI ERROR <status>`; otherwise each organic result is mapped
(possibly throwing) and the mapped list is filtered.  The query only enters
the request URL, which is outside the model. -/
def fetchSerp (parseCurrency : String → Option ParsedCurrency)
    (serpKey : Option String) (serpFetch : Except String SerpResponse)
    (nowISO : String) (_q : String) : Except String (Option (List SoldItem)) :=
  if jsOrStr serpKey "" = "" then .ok none
  else
    match serpFetch with
    | .error e => .error e
    | .ok r =>
      if ¬ r.ok then
        .error ("SerpAPI ERROR " ++ toString r.status)
      else
        match (r.organic_results.getD []).mapM (mapSerpItem parseCurrency nowISO) with
        | .error e => .error e
        | .ok mapped => .ok (some (mapped.filter serpFilter))

/-- `CACHE_DURATION` from the source: 60 minutes in milliseconds. -/
def CACHE_DURATION : ℤ := 60 * 60 * 1000

/-- The body stored in the cache and returned on success: the source builds
`\x7b query, stats, items, source, cached \x7d` (field order aside) for both. -/
structure Payload where
  query : String
  stats : Stats
  items : List SoldItem
  source : String
  cached : Bool
deriving Repr, DecidableEq

/-- The module-level `cache` object: a single slot holding `data`
(`null` initially), `timestamp` (0 initially) and `query`. -/
structure Cache where
  data : Option Payload
  timestamp : ℤ
  query : String
deriving Repr, DecidableEq

/-- The JSON body of a handler response, by provenance: a success payload,
the 400 `Missing query parameter q` error, the preflight text, or the 500
`Internal Server Error` body carrying the caught error as `message`. -/
inductive Body
  | payload (p : Payload)
  | missingQuery
  | preflight
  | internalError (message : String)
deriving Repr, DecidableEq

/-- A handler response: status code plus body (the permissive CORS headers
attached on every path carry no information and are omitted). -/
structure HResponse where
  statusCode : Nat
  body : Body
deriving Repr, DecidableEq

/-- The parts of the Netlify event the handler reads. -/
structure Event where
  q : Option String
  httpMethod : String
deriving Repr, DecidableEq

/-- The impure collaborators of one handler invocation:
* `now` — `Date.now()` at the cache-staleness computation;
* `writeTime` — `Date.now()` at the cache write;
* `nowISO` — `new Date().toISOString()` used for defaulted sold dates;
* `parseCurrency` — the external `parsecurrency` library;
* `cardsOf` — the cheerio parse, mapping raw HTML to its listing cards;
* `primary` — the ScrapingBee call (`client.get` + `response.data`):
  the raw HTML, or a thrown transport error;
* `serpKey` — `process.env.SERP_KEY`;
* `serpFetch` — the `fetch` of the SerpAPI URL: the response, or a thrown
  network error. -/
structure Env where
  now : ℤ
  writeTime : ℤ
  nowISO : String
  parseCurrency : String → Option ParsedCurrency
  cardsOf : String → List Card
  primary : Except String String
  serpKey : Option String
  serpFetch : Except String SerpResponse

/-- Outcome of one handler invocation: the HTTP response, the cache slot
after the run, and which upstream providers were actually called
(instrumentation placed at the two call sites). -/
structure RunResult where
  response : HResponse
  cache : Cache
  primaryCalled : Bool
  fallbackCalled : Bool
deriving Repr, DecidableEq

/-- The cache-hit condition of the source, verbatim: `cache.data` is truthy,
`durationFromLastFetch` is not `null` (i.e. `cache.timestamp` is non-zero),
that duration is strictly below `CACHE_DURATION`, and `cache.query === q`
(exact string equality). -/
def cacheHit (cache : Cache) (now : ℤ) (q : String) : Prop :=
  cache.data.isSome ∧ cache.timestamp ≠ 0
    ∧ now - cache.timestamp < CACHE_DURATION ∧ cache.query = q

instance (cache : Cache) (now : ℤ) (q : String) :
    Decidable (cacheHit cache now q) := by
  unfold cacheHit; infer_instance

/-- The pipeline below the validation and cache checks: the OPTIONS
preflight short-circuit, then the primary fetch, extraction, the
sufficiency branch with optional fallback, stats, cache write and response.
Both branches write the payload with `cached := true` to the cache and
return it with `cached := false`.  A thrown error (primary transport,
SerpAPI transport/status, or the mapping's `TypeError`s) reaches the
top-level `catch`, which returns 500 and leaves the cache as it was. -/
def runPipeline (env : Env) (httpMethod q : String) (cache : Cache) : RunResult :=
  if httpMethod = "OPTIONS" then
    ⟨⟨200, .preflight⟩, cache, false, false⟩
  else
    match env.primary with
    | .error e => ⟨⟨500, .internalError e⟩, cache, true, false⟩
    | .ok rawHTML =>
      let items := extractSellItemsFromHTML env.parseCurrency (env.cardsOf rawHTML) q
      if items.length < 3 then
        match fetchSerp env.parseCurrency env.serpKey env.serpFetch env.nowISO q with
        | .error e => ⟨⟨500, .internalError e⟩, cache, true, true⟩
        | .ok serpItems =>
          let items := serpItems.getD []
          let stats := calculateSalesMetrics items
          ⟨⟨200, .payload ⟨q, stats, items, "serpapi", false⟩⟩,
            ⟨some ⟨q, stats, items, "serpapi", true⟩, env.writeTime, q⟩,
            true, true⟩
      else
        let stats := calculateSalesMetrics items
        ⟨⟨200, .payload ⟨q, stats, items, "scrapingbee", false⟩⟩,
          ⟨some ⟨q, stats, items, "scrapingbee", true⟩, env.writeTime, q⟩,
          true, false⟩

/-- The exported `handler`: validate `q` (absent or blank → 400), then the
cache check (a hit returns the stored payload verbatim and calls nothing),
then the rest of the pipeline.  The cache check precedes the OPTIONS check,
as in the source. -/
def handler (env : Env) (event : Event) (cache : Cache) : RunResult :=
  match event.q with
  | none => ⟨⟨400, .missingQuery⟩, cache, false, false⟩
  | some q =>
    if jsTrim q = "" then ⟨⟨400, .missingQuery⟩, cache, false, false⟩
    else
      match cache.data with
      | some d =>
        if cache.timestamp ≠ 0 ∧ env.now - cache.timestamp < CACHE_DURATION
            ∧ cache.query = q then
          ⟨⟨200, .payload d⟩, cache, false, false⟩
        else runPipeline env event.httpMethod q cache
      | none => runPipeline env event.httpMethod q cache

/-! ### Concrete fixtures for witnesses and counterexamples -/

/-- A concrete instance of the `parsecurrency` oracle used in concrete runs:
it parses the price text used by the fixtures and nothing else. -/
def pcTest : String → Option ParsedCurrency :=
  fun s => if s = "$5" then some ⟨5, "USD", "$"⟩ else none

/-- A card whose price text is empty, so `parsePrice` returns `null`, but
whose title and condition pass the card filter. -/
def cardNoPriceText : Card := ⟨"Widget", "", "New"⟩

/-- A well-formed card. -/
def cardGood : Card := ⟨"Gadget", "$5", "New"⟩

/-- A sponsored placeholder card. -/
def cardShopOnEbay : Card := ⟨"Shop on eBay", "$5", "New"⟩

/-- A card with an empty condition text. -/
def cardNoCondition : Card := ⟨"Bare", "$5", ""⟩

/-- A complete SerpAPI organic result. -/
def rawGood : RawItem :=
  ⟨some "A", some ⟨some "$5"⟩, some "http://img", some "http://x",
    some "2024-01-01", .obj "ship" 3, some "New"⟩

/-- A SerpAPI organic result with no `thumbnail` field. -/
def rawNoThumb : RawItem :=
  ⟨some "B", some ⟨some "$5"⟩, none, some "http://y",
    some "2024-01-01", .obj "ship" 3, some "New"⟩

/-- A SerpAPI organic result with no `price` field at all. -/
def rawNoPrice : RawItem :=
  ⟨some "C", none, some "t", some "u", none, .obj "ship" 3, some "New"⟩

/-- The listing `rawGood` maps to. -/
def itemA : SoldItem :=
  { title := "A", price := some 5, currency := some "USD",
    soldDate := some "2024-01-01", condition := some "New",
    imageUrl := some "http://img", itemUrl := some "http://x",
    shipping := some "3" }

/-- The listing `rawNoThumb` maps to: retained although its `imageUrl` is
the empty string. -/
def itemB : SoldItem :=
  { title := "B", price := some 5, currency := some "USD",
    soldDate := some "2024-01-01", condition := some "New",
    imageUrl := some "", itemUrl := some "http://y",
    shipping := some "3" }

/-- The cold-start cache slot: `data: null, timestamp: 0, query: ''`. -/
def cache0 : Cache := ⟨none, 0, ""⟩

/-- A payload as a successful run stores it (`cached := true`). -/
def pStored : Payload := ⟨"phone", ⟨0, none, none, none⟩, [], "serpapi", true⟩

/-- A cache slot freshly written for query `"phone"` at time 5. -/
def cacheStored : Cache := ⟨some pStored, 5, "phone"⟩

/-- Environment where the primary page contains no cards and no SerpAPI key
is configured. -/
def envNoItems : Env :=
  ⟨0, 1, "2024", pcTest, fun _ => [], .ok "<html>", none, .ok ⟨true, 200, none⟩⟩

/-- Environment used to replay a request against `cacheStored` one
millisecond after the write. -/
def envHit : Env :=
  ⟨6, 7, "2024", pcTest, fun _ => [], .ok "<html>", none, .ok ⟨true, 200, none⟩⟩

/-- Environment where the ScrapingBee call rejects. -/
def envPrimaryErr : Env :=
  ⟨0, 1, "2024", pcTest, fun _ => [], .error "ECONNRESET", none, .ok ⟨true, 200, none⟩⟩

/-- Environment where the primary page yields no cards and SerpAPI answers
with an organic result that lacks a `price` field. -/
def envC9 : Env :=
  ⟨0, 1, "2024", pcTest, fun _ => [], .ok "<html>", some "key",
    .ok ⟨true, 200, some [rawNoPrice]⟩⟩

/-- A GET request for `q = "phone"`. -/
def eventPhone : Event := ⟨some "phone", "GET"⟩

/-! ### Helper lemmas -/

/-- The extractor loop is the filter of the cards through the title/condition
test followed by the projection to `title` and parsed price. -/
theorem extract_eq_filter_map (pc : String → Option ParsedCurrency)
    (cards : List Card) (q : String) :
    extractSellItemsFromHTML pc cards q =
      (cards.filter fun c => c.title != "Shop on eBay" && c.condition != "").map
        fun c => { title := c.title,
                   price := (parsePrice pc c.priceText).map ParsedCurrency.value } := by
  induction cards with
  | nil => rfl
  | cons c cs ih =>
    simp only [extractSellItemsFromHTML, List.filterMap_cons, List.filter_cons] at *
    by_cases h1 : c.title = "Shop on eBay"
    · simp [h1, ih]
    · by_cases h2 : c.condition = ""
      · simp [h1, h2, ih]
      · simp [h1, h2, ih]

/-- Every listing in a successful `fetchSerp` result passed the final
filter. -/
theorem serpFilter_of_mem_fetchSerp
    {pc : String → Option ParsedCurrency} {key : Option String}
    {fr : Except String SerpResponse} {iso q : String} {items : List SoldItem}
    (h : fetchSerp pc key fr iso q = .ok (some items)) :
    ∀ x ∈ items, serpFilter x = true := by
  unfold fetchSerp at h
  split at h
  · simp at h
  · cases fr with
    | error e => simp at h
    | ok r =>
      dsimp only at h
      split at h
      · simp at h
      · split at h
        · simp at h
        · simp only [Except.ok.injEq, Option.some.injEq] at h
          subst h
          intro x hx
          exact (List.mem_filter.mp hx).2

/-- On a non-OPTIONS request, every branch of the pipeline below the cache
invokes the primary provider. -/
theorem runPipeline_primaryCalled_true (env : Env) (m q : String) (cache : Cache)
    (hm : m ≠ "OPTIONS") :
    (runPipeline env m q cache).primaryCalled = true := by
  unfold runPipeline
  rw [if_neg hm]
  cases env.primary with
  | error e => rfl
  | ok html =>
    dsimp only
    split
    · split <;> rfl
    · rfl

/-- A request with a valid query that misses the cache proceeds to the
pipeline. -/
theorem handler_of_miss (env : Env) (event : Event) (cache : Cache) (q : String)
    (hq : event.q = some q) (hqt : jsTrim q ≠ "")
    (hmiss : ¬ cacheHit cache env.now q) :
    handler env event cache = runPipeline env event.httpMethod q cache := by
  unfold handler
  rw [hq]
  dsimp only
  rw [if_neg hqt]
  split
  · rename_i d hd
    rw [if_neg]
    intro hc
    exact hmiss ⟨by rw [hd]; rfl, hc.1, hc.2.1, hc.2.2⟩
  · rfl

/-- A request with a valid query that hits the cache returns the stored
payload verbatim, leaves the cache alone and calls no provider. -/
theorem handler_of_hit (env : Env) (event : Event) (cache : Cache) (q : String)
    (hq : event.q = some q) (hqt : jsTrim q ≠ "")
    (hhit : cacheHit cache env.now q) :
    ∃ d, cache.data = some d ∧
      handler env event cache = ⟨⟨200, .payload d⟩, cache, false, false⟩ := by
  obtain ⟨h1, h2, h3, h4⟩ := hhit
  cases hd : cache.data with
  | none => rw [hd] at h1; simp at h1
  | some d =>
    refine ⟨d, rfl, ?_⟩
    unfold handler
    rw [hq]
    dsimp only
    rw [if_neg hqt, hd]
    dsimp only
    rw [if_pos ⟨h2, h3, h4⟩]

/-! ### Claim theorems -/

/-- C3: the quantile function implements the linear-interpolation (R-7)
estimator: on the price list [1, 2, 3, 4] it returns p25 = 1.75,
median = 2.5 and p75 = 3.25, and on the single-element list [5] all three
quantiles equal 5. -/
theorem quantile_r7_values :
    quantile [some 1, some 2, some 3, some 4] 0.25 = some 1.75 ∧
    quantile [some 1, some 2, some 3, some 4] 0.5 = some 2.5 ∧
    quantile [some 1, some 2, some 3, some 4] 0.75 = some 3.25 ∧
    quantile [some 5] 0.25 = some 5 ∧
    quantile [some 5] 0.5 = some 5 ∧
    quantile [some 5] 0.75 = some 5 := by
  refine ⟨?_, ?_, ?_, ?_, ?_, ?_⟩ <;>
    norm_num [quantile, jsSortNums, jsGet, List.insertionSort, List.orderedInsert,
      show Int.toNat 2 = 2 from rfl, show Int.toNat 3 = 3 from rfl]

/-- C4: on the empty listing sequence the stats calculator returns
`count = 0` and an absent value (`none`, i.e. JavaScript `undefined`, which
is dropped from the JSON body) for each of p25, median and p75. -/
theorem stats_empty_input :
    calculateSalesMetrics [] = { count := 0, p25 := none, median := none, p75 := none } := by
  norm_num [calculateSalesMetrics, quantile, jsSortNums, jsGet, List.insertionSort]

/-- C5, counterexample: a card whose price text is empty (so `parsePrice`
returns `null`) but whose title and condition pass the card filter IS
emitted by primary extraction, with an absent price — refuting the claim
that primary extraction never emits a listing whose price text failed to
parse. -/
theorem primary_price_unparsed_emitted_cex :
    parsePrice pcTest cardNoPriceText.priceText = none ∧
    extractSellItemsFromHTML pcTest [cardNoPriceText] "widget" =
      [{ title := "Widget", price := none }] :=
  ⟨rfl, rfl⟩

/-- C5, amended: every fallback-sourced listing has a present, strictly
positive price (primary extraction, by contrast, can emit a listing with an
absent price, because its card filter checks only title and condition — see
the counterexample). -/
theorem fallback_price_positive
    (pc : String → Option ParsedCurrency) (key : Option String)
    (fr : Except String SerpResponse) (iso q : String) (items : List SoldItem)
    (h : fetchSerp pc key fr iso q = .ok (some items)) :
    ∀ x ∈ items, ∃ v, x.price = some v ∧ 0 < v := by
  intro x hx
  have hf := serpFilter_of_mem_fetchSerp h x hx
  simp only [serpFilter, Bool.and_eq_true] at hf
  obtain ⟨-, hp⟩ := hf
  cases hv : x.price with
  | none => rw [hv] at hp; simp at hp
  | some v =>
    rw [hv] at hp
    exact ⟨v, rfl, by simpa using of_decide_eq_true hp⟩

/-- Witness for the amended C5 at a concrete fallback run. -/
theorem fallback_price_positive_witness :
    ∃ v, itemA.price = some v ∧ 0 < v :=
  fallback_price_positive pcTest (some "key") (.ok ⟨true, 200, some [rawGood]⟩)
    "2024" "q" [itemA] rfl itemA (by decide)

/-- C6, counterexample: a SerpAPI organic result with no `thumbnail` is
retained by the fallback client with `imageUrl` equal to the empty string —
refuting the claim that every retained listing has a non-empty
`imageUrl`. -/
theorem fallback_empty_imageUrl_retained_cex :
    fetchSerp pcTest (some "key") (.ok ⟨true, 200, some [rawNoThumb]⟩) "2024" "q"
      = .ok (some [itemB]) ∧ itemB.imageUrl = some "" :=
  ⟨rfl, rfl⟩

/-- C6, amended: every listing retained in the fallback client's result has
a non-empty `itemUrl` (and a non-empty title); an item lacking either is
excluded from the result even if present in the raw provider response.
`imageUrl` is NOT checked: it defaults to the empty string. -/
theorem fallback_itemUrl_required
    (pc : String → Option ParsedCurrency) (key : Option String)
    (fr : Except String SerpResponse) (iso q : String) (items : List SoldItem)
    (h : fetchSerp pc key fr iso q = .ok (some items)) :
    ∀ x ∈ items, x.itemUrl.getD "" ≠ "" ∧ x.title ≠ "" := by
  intro x hx
  have hf := serpFilter_of_mem_fetchSerp h x hx
  simp only [serpFilter, Bool.and_eq_true, bne_iff_ne, ne_eq] at hf
  exact ⟨hf.1.2, hf.1.1⟩

/-- Witness for the amended C6 at a concrete fallback run. -/
theorem fallback_itemUrl_required_witness :
    itemB.itemUrl.getD "" ≠ "" ∧ itemB.title ≠ "" :=
  fallback_itemUrl_required pcTest (some "key") (.ok ⟨true, 200, some [rawNoThumb]⟩)
    "2024" "q" [itemB] rfl itemB (by decide)

/-- C7: the HTML extractor is exactly the in-order filter of the cards
through "title is not the sponsored placeholder AND condition is
non-empty", followed by the projection to title and parsed price: hence a
card titled "Shop on eBay" is never emitted, a card with empty condition is
never emitted, and emission order matches card order. -/
theorem extractor_filter_and_order
    (pc : String → Option ParsedCurrency) (cards : List Card) (q : String) :
    extractSellItemsFromHTML pc cards q =
      (cards.filter fun c => c.title != "Shop on eBay" && c.condition != "").map
        (fun c => { title := c.title,
                    price := (parsePrice pc c.priceText).map ParsedCurrency.value }) ∧
    ∀ it ∈ extractSellItemsFromHTML pc cards q, it.title ≠ "Shop on eBay" := by
  refine ⟨extract_eq_filter_map pc cards q, ?_⟩
  intro it hit
  rw [extract_eq_filter_map] at hit
  obtain ⟨c, hc, rfl⟩ := List.mem_map.mp hit
  have hcf := (List.mem_filter.mp hc).2
  simp only [Bool.and_eq_true, bne_iff_ne] at hcf
  exact hcf.1

/-- Witness for C7 at a concrete card list. -/
theorem extractor_filter_and_order_witness :
    ({ title := "Gadget", price := some (5 : ℚ) } : SoldItem).title ≠ "Shop on eBay" :=
  (extractor_filter_and_order pcTest [cardGood, cardShopOnEbay] "q").2
    { title := "Gadget", price := some 5 } (by decide)

/-- C10: every listing emitted by primary extraction carries only `title`
and `price`; currency, soldDate, condition, imageUrl, itemUrl and shipping
are all absent. -/
theorem primary_listing_fields_absent
    (pc : String → Option ParsedCurrency) (cards : List Card) (q : String) :
    ∀ it ∈ extractSellItemsFromHTML pc cards q,
      it.currency = none ∧ it.soldDate = none ∧ it.condition = none ∧
      it.imageUrl = none ∧ it.itemUrl = none ∧ it.shipping = none := by
  intro it hit
  rw [extract_eq_filter_map] at hit
  obtain ⟨c, -, rfl⟩ := List.mem_map.mp hit
  exact ⟨rfl, rfl, rfl, rfl, rfl, rfl⟩

/-- Witness for C10 at a concrete card list. -/
theorem primary_listing_fields_absent_witness :
    ({ title := "Gadget", price := some (5 : ℚ) } : SoldItem).currency = none ∧
    ({ title := "Gadget", price := some (5 : ℚ) } : SoldItem).soldDate = none ∧
    ({ title := "Gadget", price := some (5 : ℚ) } : SoldItem).condition = none ∧
    ({ title := "Gadget", price := some (5 : ℚ) } : SoldItem).imageUrl = none ∧
    ({ title := "Gadget", price := some (5 : ℚ) } : SoldItem).itemUrl = none ∧
    ({ title := "Gadget", price := some (5 : ℚ) } : SoldItem).shipping = none :=
  primary_listing_fields_absent pcTest [cardGood] "q"
    { title := "Gadget", price := some 5 } (by decide)

/-- C1: on a validated, cache-missing, non-preflight request whose primary
extraction yields fewer than 3 listings, the fallback client is invoked and
any success payload is tagged with the fallback source `"serpapi"`; with 3
or more listings the fallback client is never invoked and the payload is
tagged with the primary source `"scrapingbee"`. -/
theorem orchestrator_fallback_branch
    (env : Env) (event : Event) (cache : Cache) (q html : String)
    (hq : event.q = some q) (hqt : jsTrim q ≠ "")
    (hm : event.httpMethod ≠ "OPTIONS")
    (hmiss : ¬ cacheHit cache env.now q)
    (hprim : env.primary = .ok html) :
    ((extractSellItemsFromHTML env.parseCurrency (env.cardsOf html) q).length < 3 →
      (handler env event cache).fallbackCalled = true ∧
      ∀ p, (handler env event cache).response.body = .payload p → p.source = "serpapi") ∧
    (¬ (extractSellItemsFromHTML env.parseCurrency (env.cardsOf html) q).length < 3 →
      (handler env event cache).fallbackCalled = false ∧
      ∃ p, (handler env event cache).response.body = .payload p ∧
        p.source = "scrapingbee") := by
  rw [handler_of_miss env event cache q hq hqt hmiss]
  unfold runPipeline
  rw [if_neg hm, hprim]
  dsimp only
  constructor
  · intro hlen
    rw [if_pos hlen]
    cases hs : fetchSerp env.parseCurrency env.serpKey env.serpFetch env.nowISO q with
    | error e => exact ⟨rfl, by intro p hp; cases hp⟩
    | ok serpItems => exact ⟨rfl, by intro p hp; cases hp; rfl⟩
  · intro hlen
    rw [if_neg hlen]
    exact ⟨rfl, ⟨_, rfl, rfl⟩⟩

/-- Witness for C1: the fallback path at a concrete run with an empty
primary page. -/
theorem orchestrator_fallback_branch_witness :
    (handler envNoItems eventPhone cache0).fallbackCalled = true :=
  ((orchestrator_fallback_branch envNoItems eventPhone cache0 "phone" "<html>"
    rfl (by decide) (by decide) (by decide) rfl).1 (by decide)).1

/-- C2: on a validated non-preflight request, the lookup is a hit — the
stored payload (marked `cached = true` on any cache slot written by the
handler) is returned unchanged, the cache is untouched and neither upstream
provider is invoked — if and only if an entry exists (`data` present,
`timestamp` non-zero), its query equals the requested one byte-for-byte,
and the elapsed time is strictly below `CACHE_DURATION` (60 minutes); on a
miss the primary provider IS invoked. -/
theorem cache_lookup_hit_iff
    (env : Env) (event : Event) (cache : Cache) (q : String)
    (hq : event.q = some q) (hqt : jsTrim q ≠ "")
    (hm : event.httpMethod ≠ "OPTIONS")
    (hwf : ∀ p, cache.data = some p → p.cached = true) :
    cacheHit cache env.now q ↔
      ∃ p, cache.data = some p ∧ p.cached = true ∧
        handler env event cache = ⟨⟨200, .payload p⟩, cache, false, false⟩ := by
  constructor
  · intro hhit
    obtain ⟨d, hd, hrun⟩ := handler_of_hit env event cache q hq hqt hhit
    exact ⟨d, hd, hwf d hd, hrun⟩
  · rintro ⟨p, hp, hc, hrun⟩
    by_contra hmiss
    rw [handler_of_miss env event cache q hq hqt hmiss] at hrun
    have hpc := runPipeline_primaryCalled_true env event.httpMethod q cache hm
    rw [hrun] at hpc
    simp at hpc

/-- Witness for C2: a replayed identical query one millisecond after a
cache write hits and returns the stored payload. -/
theorem cache_lookup_hit_iff_witness :
    ∃ p, cacheStored.data = some p ∧ p.cached = true ∧
      handler envHit eventPhone cacheStored
        = ⟨⟨200, .payload p⟩, cacheStored, false, false⟩ :=
  (cache_lookup_hit_iff envHit eventPhone cacheStored "phone" rfl (by decide)
    (by decide)
    (fun p hp => by
      simp only [cacheStored] at hp
      cases hp
      rfl)).mp (by decide)

/-- C8: on a validated, cache-missing, non-preflight request, an error
thrown by the primary fetch, or (when primary extraction yields fewer than
3 listings) by the fallback client — including its non-success-status
`SerpAPI ERROR` failure and its mapping `TypeError`s — makes the handler
return a 500 response carrying the error description, with the cache slot
left exactly as it was. -/
theorem error_path_500_cache_unchanged
    (env : Env) (event : Event) (cache : Cache) (q : String)
    (hq : event.q = some q) (hqt : jsTrim q ≠ "")
    (hm : event.httpMethod ≠ "OPTIONS")
    (hmiss : ¬ cacheHit cache env.now q) :
    (∀ e, env.primary = .error e →
      handler env event cache = ⟨⟨500, .internalError e⟩, cache, true, false⟩) ∧
    (∀ html e, env.primary = .ok html →
      (extractSellItemsFromHTML env.parseCurrency (env.cardsOf html) q).length < 3 →
      fetchSerp env.parseCurrency env.serpKey env.serpFetch env.nowISO q = .error e →
      handler env event cache = ⟨⟨500, .internalError e⟩, cache, true, true⟩) := by
  rw [handler_of_miss env event cache q hq hqt hmiss]
  constructor
  · intro e he
    unfold runPipeline
    rw [if_neg hm, he]
  · intro html e he hlen hserp
    unfold runPipeline
    rw [if_neg hm, he]
    dsimp only
    rw [if_pos hlen, hserp]

/-- Witness for C8: a concrete run whose ScrapingBee call rejects. -/
theorem error_path_500_cache_unchanged_witness :
    handler envPrimaryErr eventPhone cache0
      = ⟨⟨500, .internalError "ECONNRESET"⟩, cache0, true, false⟩ :=
  (error_path_500_cache_unchanged envPrimaryErr eventPhone cache0 "phone"
    rfl (by decide) (by decide) (by decide)).1 "ECONNRESET" rfl

/-- C9: a fallback provider response containing an organic result without a
`price` field makes the mapping throw (the `it.price.raw` access on an
absent `price`) rather than skip the item or default its price, and the
whole request then terminates on the internal-error path with the cache
unchanged. -/
theorem serp_missing_price_throws :
    fetchSerp pcTest (some "key") (.ok ⟨true, 200, some [rawNoPrice]⟩) "2024" "q"
      = .error "TypeError: cannot read properties of undefined, reading raw" ∧
    handler envC9 eventPhone cache0
      = ⟨⟨500,
          .internalError "TypeError: cannot read properties of undefined, reading raw"⟩,
         cache0, true, true⟩ :=
  ⟨rfl, rfl⟩

end EbaySales
